import Mathlib

/-
  A shallow embedding of the tool layer of pyautogui-mcp.py.

  Each MCP tool wraps a call into the pyautogui backend in a try/except
  block and shapes the outcome into a JSON-like result envelope.  The
  backend (pyautogui itself, the OS windowing system, the filesystem) is
  external to this repository, so every tool is modelled as a function of
  its caller-supplied arguments together with the outcome of the backend
  call: either a normal return value or a raised exception.  Python
  exceptions are modelled by PyErr, which records whether the exception is
  an instance of pyautogui.PyAutoGUIException (the only class most tools
  catch) and its message (str(e)).  A tool returns Except PyErr Env: the
  ok branch is the returned envelope, the error branch is an exception
  that escaped the tool's try/except and propagated to the framework.

  Parameters that a tool merely forwards to the backend without echoing
  them in the envelope (durations, intervals, confidence) are elided: the
  backend outcome parameter already accounts for their effect.
-/

set_option autoImplicit false

namespace PyMCP

/-- JSON-like values appearing in result envelopes. -/
inductive JVal where
  | null
  | bool (b : Bool)
  | int (n : Int)
  | str (s : String)
  | list (l : List JVal)
  | obj (l : List (String × JVal))

/-- A result envelope: the Python dict returned by a tool, as an
association list of string keys to values in insertion order (every dict
literal in the source has pairwise distinct keys). -/
abbrev Env := List (String × JVal)

/-- Key lookup in an envelope (Python dict access / key-membership). -/
def Env.lookup : Env → String → Option JVal
  | [], _ => none
  | (k, v) :: rest, key => if k = key then some v else Env.lookup rest key

/-- A Python exception as seen by the tool layer: whether it is an
instance of pyautogui.PyAutoGUIException, and its message str(e). -/
structure PyErr where
  isPyAutoGUI : Bool
  msg : String

/-- The result of a backend call: a value or a raised exception. -/
abbrev PyResult (α : Type) := Except PyErr α

/-- python os.path.basename for POSIX paths: the part of the path after
the last slash (resolves to an empty string for paths ending in a slash). -/
def basename (p : String) : String :=
  String.mk (p.data.foldl (fun acc c => if c = '/' then [] else acc ++ [c]) [])

/-- python posixpath.join for two components: an absolute second
component replaces the first; otherwise the components are glued with a
single slash unless the first is empty or already ends in one.
(startswith and endswith of the one-character separator are expressed as
first/last character tests.) -/
def path_join (a b : String) : String :=
  if b.data.head? = some '/' then b
  else if a = "" ∨ a.data.getLast? = some '/' then a ++ b
  else a ++ "/" ++ b

/-- Truthiness of an optional Python string: None and the empty string
are falsy, every other string is truthy. -/
def pyTruthy : Option String → Bool
  | none => false
  | some s => if s = "" then false else true

/-- Remove leading and trailing whitespace characters (python str.strip()
with no argument; only ASCII whitespace is modelled). -/
def trimChars (l : List Char) : List Char :=
  ((l.dropWhile Char.isWhitespace).reverse.dropWhile Char.isWhitespace).reverse

/-- Value of an ASCII decimal digit character, as accepted by python
int() in base 10 (non-ASCII unicode digits are not modelled). -/
def digitVal? (c : Char) : Option Nat :=
  if 48 ≤ c.toNat ∧ c.toNat ≤ 57 then some (c.toNat - 48) else none

/-- Value of an ASCII hexadecimal digit character, as accepted by python
int() in base 16. -/
def hexVal? (c : Char) : Option Nat :=
  if 48 ≤ c.toNat ∧ c.toNat ≤ 57 then some (c.toNat - 48)
  else if 97 ≤ c.toNat ∧ c.toNat ≤ 102 then some (c.toNat - 87)
  else if 65 ≤ c.toNat ∧ c.toNat ≤ 70 then some (c.toNat - 55)
  else none

/-- Accumulate the remaining digits of a python int literal after the
first digit: single underscores are allowed between digits only. -/
def pyDigitsCore (dv : Char → Option Nat) (base : Nat) : List Char → Nat → Option Nat
  | [], acc => some acc
  | c :: cs, acc =>
    if c = '_' then
      match cs with
      | c2 :: cs2 =>
        match dv c2 with
        | some d => pyDigitsCore dv base cs2 (acc * base + d)
        | none => none
      | [] => none
    else
      match dv c with
      | some d => pyDigitsCore dv base cs (acc * base + d)
      | none => none

/-- A nonempty run of digits (with optional internal underscores) whose
first character must be a digit. -/
def digitsRun (dv : Char → Option Nat) (base : Nat) : List Char → Option Nat
  | [] => none
  | c :: cs =>
    match dv c with
    | some d => pyDigitsCore dv base cs d
    | none => none

/-- The digit part of python int(s, 16) after sign removal: an optional
0x or 0X base marker followed by hex digits. -/
def pyNat16body (l : List Char) : Option Nat :=
  if l.take 2 = ['0', 'x'] ∨ l.take 2 = ['0', 'X'] then
    digitsRun hexVal? 16 (l.drop 2)
  else digitsRun hexVal? 16 l

/-- python int(s, 16) on a character list: surrounding whitespace is
stripped, then an optional single sign, an optional 0x marker and a
nonempty digit run. -/
def pyInt16 (l : List Char) : Option Int :=
  let t := trimChars l
  if t.head? = some '+' then (pyNat16body t.tail).map Int.ofNat
  else if t.head? = some '-' then (pyNat16body t.tail).map (fun n => -(Int.ofNat n))
  else (pyNat16body t).map Int.ofNat

/-- python int(s) in base 10 on a character list: stripped whitespace,
optional single sign, nonempty digit run, no base marker. -/
def pyInt10 (l : List Char) : Option Int :=
  let t := trimChars l
  if t.head? = some '+' then (digitsRun digitVal? 10 t.tail).map Int.ofNat
  else if t.head? = some '-' then (digitsRun digitVal? 10 t.tail).map (fun n => -(Int.ofNat n))
  else (digitsRun digitVal? 10 t).map Int.ofNat

/-- python str.strip("() ") : remove any leading and trailing characters
drawn from the set left parenthesis, right parenthesis, space. -/
def stripParenSpace (l : List Char) : List Char :=
  ((l.dropWhile (fun c => c = '(' ∨ c = ')' ∨ c = ' ')).reverse.dropWhile
    (fun c => c = '(' ∨ c = ')' ∨ c = ' ')).reverse

/-- python str.split(",") : split on every comma; an empty string yields
one empty part, adjacent commas yield empty parts. -/
def splitOnComma : List Char → List (List Char)
  | [] => [[]]
  | c :: cs =>
    match splitOnComma cs with
    | [] => [[c]]
    | g :: gs => if c = ',' then [] :: g :: gs else (c :: g) :: gs

/-- The message of python ValueError raised by int(s, base); the repr of
the offending string is modelled as the string between single quotes
(escaping inside repr is not modelled). -/
def invalidLitMsg (base : Nat) (s : List Char) : String :=
  "invalid literal for int() with base " ++ toString base ++ ": " ++
    String.mk ('\'' :: s) ++ "'"

/-- A pyautogui Box named tuple (left, top, width, height) as returned by
locateOnScreen. -/
structure Box where
  left : Int
  top : Int
  width : Int
  height : Int

/-- A pyautogui Point named tuple (x, y) as returned by
locateCenterOnScreen. -/
structure PointXY where
  x : Int
  y : Int

/-- A pygetwindow window object, restricted to the attributes the server
reads. -/
structure PyWindow where
  title : String
  left : Int
  top : Int
  width : Int
  height : Int

/-- The JSON rendering of an optional region argument when echoed in an
envelope: Python None becomes null, a list of ints a JSON list. -/
def regionJ : Option (List Int) → JVal
  | none => JVal.null
  | some r => JVal.list (r.map JVal.int)

/-- The per-window dict built by get_windows_with_title. -/
def windowJ (w : PyWindow) : JVal :=
  JVal.obj [("title", JVal.str w.title), ("left", JVal.int w.left),
    ("top", JVal.int w.top), ("width", JVal.int w.width),
    ("height", JVal.int w.height)]

/-- move_mouse (source lines 53-69): forwards to pyautogui.moveTo and
echoes x, y plus a message; only PyAutoGUIException is caught (the
duration argument is forwarded to the backend and not echoed). -/
def move_mouse (x y : Int) (backend : PyResult Unit) : PyResult Env :=
  match backend with
  | .ok _ =>
    .ok [("x", JVal.int x), ("y", JVal.int y),
      ("message", JVal.str ("Mouse moved to (" ++ toString x ++ ", " ++ toString y ++ ")"))]
  | .error e => if e.isPyAutoGUI then .ok [("error", JVal.str e.msg)] else .error e

/-- get_mouse_position (source lines 221-232): returns the backend cursor
position as x, y with no message field; only PyAutoGUIException is
caught. -/
def get_mouse_position (backend : PyResult (Int × Int)) : PyResult Env :=
  match backend with
  | .ok (x, y) => .ok [("x", JVal.int x), ("y", JVal.int y)]
  | .error e => if e.isPyAutoGUI then .ok [("error", JVal.str e.msg)] else .error e

/-- screenshot (source lines 329-357).  The backend capture outcome is
shot (its ok value abstracts the image by the base64 text that
img.save/b64encode would produce for it); save is the combined outcome of
os.makedirs plus img.save when a filename is given.  Only
PyAutoGUIException is caught; any other exception (e.g. a ValueError from
a malformed region inside pyautogui.screenshot, or an OSError from
img.save) propagates. -/
def screenshot (filename : Option String) (region : Option (List Int))
    (shot : PyResult String) (save : PyResult Unit) : PyResult Env :=
  match shot with
  | .error e => if e.isPyAutoGUI then .ok [("error", JVal.str e.msg)] else .error e
  | .ok img =>
    match filename with
    | none =>
      .ok [("message", JVal.str "Screenshot taken"), ("region", regionJ region),
        ("image_base64", JVal.str img)]
    | some fn =>
      let save_path := path_join "screenshots" (basename fn)
      match save with
      | .error e => if e.isPyAutoGUI then .ok [("error", JVal.str e.msg)] else .error e
      | .ok _ =>
        .ok [("filename", JVal.str save_path), ("region", regionJ region),
          ("message", JVal.str ("Screenshot saved to " ++ save_path))]

/-- locate_on_screen (source lines 360-391).  The region argument only
selects which backend call is made; the backend outcome is an optional
Box (pyautogui returns None when the image is not found) or an exception.
Every exception is caught (except Exception), yielding an envelope that
carries found, error and message together. -/
def locate_on_screen (image_path : String) (region : Option (List Int))
    (backend : PyResult (Option Box)) : PyResult Env :=
  match backend with
  | .ok (some pos) =>
    .ok [("found", JVal.bool true), ("left", JVal.int pos.left),
      ("top", JVal.int pos.top), ("width", JVal.int pos.width),
      ("height", JVal.int pos.height),
      ("message", JVal.str ("Found image at (" ++ toString pos.left ++ ", " ++ toString pos.top ++ ")"))]
  | .ok none =>
    .ok [("found", JVal.bool false), ("message", JVal.str "Image not found on screen")]
  | .error e =>
    .ok [("found", JVal.bool false), ("error", JVal.str e.msg),
      ("message", JVal.str ("Error finding image: " ++ e.msg))]

/-- locate_center_on_screen (source lines 394-423): as locate_on_screen
but the backend returns an optional center Point. -/
def locate_center_on_screen (image_path : String) (region : Option (List Int))
    (backend : PyResult (Option PointXY)) : PyResult Env :=
  match backend with
  | .ok (some pos) =>
    .ok [("found", JVal.bool true), ("x", JVal.int pos.x), ("y", JVal.int pos.y),
      ("message", JVal.str ("Found image center at (" ++ toString pos.x ++ ", " ++ toString pos.y ++ ")"))]
  | .ok none =>
    .ok [("found", JVal.bool false), ("message", JVal.str "Image not found on screen")]
  | .error e =>
    .ok [("found", JVal.bool false), ("error", JVal.str e.msg),
      ("message", JVal.str ("Error finding image: " ++ e.msg))]

/-- The color-string parser inlined in pixel_matches_color (source lines
458-472): a leading hash selects the hex form (all leading hashes are
stripped by lstrip, the remaining body must have length 6 and its three
two-character slices are converted with int(-, 16)); a leading left
parenthesis selects the tuple form (strip of parentheses and spaces,
split on commas, exactly three parts each converted with int(part.strip())).
Anything else raises ValueError.  The error branch carries the message of
the ValueError raised (first failure wins, matching evaluation order). -/
def parse_color (color : String) : Except String (Int × Int × Int) :=
  if color.data.head? = some '#' then
    let hex_color := color.data.dropWhile (fun c => c = '#')
    if hex_color.length = 6 then
      match pyInt16 (hex_color.take 2) with
      | none => .error (invalidLitMsg 16 (hex_color.take 2))
      | some r =>
        match pyInt16 ((hex_color.drop 2).take 2) with
        | none => .error (invalidLitMsg 16 ((hex_color.drop 2).take 2))
        | some g =>
          match pyInt16 ((hex_color.drop 4).take 2) with
          | none => .error (invalidLitMsg 16 ((hex_color.drop 4).take 2))
          | some b => .ok (r, g, b)
    else .error "Hex color must be in #RRGGBB format."
  else if color.data.head? = some '(' then
    let color_values := splitOnComma (stripParenSpace color.data)
    match color_values with
    | [a, b, c] =>
      match pyInt10 (trimChars a) with
      | none => .error (invalidLitMsg 10 (trimChars a))
      | some r =>
        match pyInt10 (trimChars b) with
        | none => .error (invalidLitMsg 10 (trimChars b))
        | some g =>
          match pyInt10 (trimChars c) with
          | none => .error (invalidLitMsg 10 (trimChars c))
          | some bb => .ok (r, g, bb)
    | _ => .error "RGB color must be a tuple/list of 3 integers."
  else .error "Invalid color format. Use '#RRGGBB' or '(R, G, B)'."

/-- pixel_matches_color (source lines 444-477): parse the color string,
then ask the backend whether the pixel matches (the tolerance argument is
forwarded to the backend).  The whole try body is guarded by except
Exception, so both parse failures and backend exceptions become an error
envelope wrapping the message. -/
def pixel_matches_color (x y : Int) (color : String) (tolerance : Int)
    (backend : PyResult Bool) : PyResult Env :=
  match parse_color color with
  | .error msg =>
    .ok [("error", JVal.str ("Failed to process color '" ++ color ++ "': " ++ msg))]
  | .ok _ =>
    match backend with
    | .ok m =>
      .ok [("x", JVal.int x), ("y", JVal.int y), ("color", JVal.str color),
        ("matches", JVal.bool m)]
    | .error e =>
      .ok [("error", JVal.str ("Failed to process color '" ++ color ++ "': " ++ e.msg))]

/-- get_windows_with_title (source lines 526-544): the backend performs
the substring title lookup; its result list is mapped to per-window
dicts, and count is the length of that list.  On a PyAutoGUIException the
envelope carries empty defaults alongside the error. -/
def get_windows_with_title (title_fragment : String)
    (backend : PyResult (List PyWindow)) : PyResult Env :=
  match backend with
  | .ok ws =>
    .ok [("windows", JVal.list (ws.map windowJ)), ("count", JVal.int ws.length)]
  | .error e =>
    if e.isPyAutoGUI then
      .ok [("windows", JVal.list []), ("count", JVal.int 0), ("error", JVal.str e.msg)]
    else .error e

/-- get_active_window_title (source lines 498-509): the backend returns
the active window title, None when there is no active window.  A falsy
title (None or the empty string) is replaced by the literal string
"None". -/
def get_active_window_title (backend : PyResult (Option String)) : PyResult Env :=
  match backend with
  | .ok t =>
    .ok [("title", JVal.str (match t with
      | some s => if s = "" then "None" else s
      | none => "None"))]
  | .error e =>
    if e.isPyAutoGUI then .ok [("title", JVal.null), ("error", JVal.str e.msg)]
    else .error e

/-- password (source lines 610-627): the backend dialog returns the
entered secret, or None on cancel.  The envelope echoes message, title
and mask; the result field is the string "[REDACTED]" when the returned
secret is truthy and null otherwise — the secret itself is dropped. -/
def password (message title mask : String)
    (backend : PyResult (Option String)) : PyResult Env :=
  match backend with
  | .ok r =>
    .ok [("message", JVal.str message), ("title", JVal.str title),
      ("mask", JVal.str mask),
      ("result", if pyTruthy r then JVal.str "[REDACTED]" else JVal.null)]
  | .error e => if e.isPyAutoGUI then .ok [("error", JVal.str e.msg)] else .error e

/-- fail_safe_check (source lines 670-678): no try/except and no backend
call; a pure read of the process-wide pyautogui.FAILSAFE flag. -/
def fail_safe_check (failsafe : Bool) : PyResult Env :=
  .ok [("enabled", JVal.bool failsafe),
    ("message", JVal.str (if failsafe then "Failsafe enabled" else "Failsafe disabled"))]

/-- One invocation of a modelled tool: its caller arguments together with
the backend outcome for that call. -/
inductive Call where
  | moveMouse (x y : Int) (backend : PyResult Unit)
  | getMousePosition (backend : PyResult (Int × Int))
  | screenshotCall (filename : Option String) (region : Option (List Int))
      (shot : PyResult String) (save : PyResult Unit)
  | locateOnScreen (image_path : String) (region : Option (List Int))
      (backend : PyResult (Option Box))
  | locateCenterOnScreen (image_path : String) (region : Option (List Int))
      (backend : PyResult (Option PointXY))
  | pixelMatchesColor (x y : Int) (color : String) (tolerance : Int)
      (backend : PyResult Bool)
  | getWindowsWithTitle (title_fragment : String) (backend : PyResult (List PyWindow))
  | getActiveWindowTitle (backend : PyResult (Option String))
  | passwordCall (message title mask : String) (backend : PyResult (Option String))
  | failSafeCheck (failsafe : Bool)

/-- Dispatch a modelled call to its tool. -/
def runTool : Call → PyResult Env
  | .moveMouse x y b => move_mouse x y b
  | .getMousePosition b => get_mouse_position b
  | .screenshotCall fn reg shot save => screenshot fn reg shot save
  | .locateOnScreen p reg b => locate_on_screen p reg b
  | .locateCenterOnScreen p reg b => locate_center_on_screen p reg b
  | .pixelMatchesColor x y color tol b => pixel_matches_color x y color tol b
  | .getWindowsWithTitle f b => get_windows_with_title f b
  | .getActiveWindowTitle b => get_active_window_title b
  | .passwordCall m t k b => password m t k b
  | .failSafeCheck f => fail_safe_check f

/-- Whether a backend outcome is a raised exception. -/
def backendRaised {α : Type} : PyResult α → Bool
  | .error _ => true
  | .ok _ => false

/-- Whether the tool call fails, in the sense of producing an error
envelope when its exceptions are caught: a backend exception was raised
at a point the tool reaches, or (for pixel_matches_color) the color
string fails to parse. -/
def callFailed : Call → Bool
  | .moveMouse _ _ b => backendRaised b
  | .getMousePosition b => backendRaised b
  | .screenshotCall fn _ shot save => backendRaised shot || (fn.isSome && backendRaised save)
  | .locateOnScreen _ _ b => backendRaised b
  | .locateCenterOnScreen _ _ b => backendRaised b
  | .pixelMatchesColor _ _ color _ b =>
    (match parse_color color with
     | .error _ => true
     | .ok _ => false) || backendRaised b
  | .getWindowsWithTitle _ b => backendRaised b
  | .getActiveWindowTitle b => backendRaised b
  | .passwordCall _ _ _ b => backendRaised b
  | .failSafeCheck _ => false

/-- Whether every backend exception embedded in the call is an instance
of pyautogui.PyAutoGUIException. -/
def errOkOrPy {α : Type} : PyResult α → Bool
  | .ok _ => true
  | .error e => e.isPyAutoGUI

/-- All backend outcomes of the call are either normal returns or
PyAutoGUIException instances. -/
def callErrorsArePyAutoGUI : Call → Bool
  | .moveMouse _ _ b => errOkOrPy b
  | .getMousePosition b => errOkOrPy b
  | .screenshotCall _ _ shot save => errOkOrPy shot && errOkOrPy save
  | .locateOnScreen _ _ b => errOkOrPy b
  | .locateCenterOnScreen _ _ b => errOkOrPy b
  | .pixelMatchesColor _ _ _ _ b => errOkOrPy b
  | .getWindowsWithTitle _ b => errOkOrPy b
  | .getActiveWindowTitle b => errOkOrPy b
  | .passwordCall _ _ _ b => errOkOrPy b
  | .failSafeCheck _ => false

/-- The tools whose try body is guarded by a bare except Exception
clause, catching every exception. -/
def catchesAllExceptions : Call → Bool
  | .locateOnScreen _ _ _ => true
  | .locateCenterOnScreen _ _ _ => true
  | .pixelMatchesColor _ _ _ _ _ => true
  | _ => false

/-- Whether an envelope carries any of the success indications produced
by the modelled tools: a message, a found flag, queried coordinates, a
window list, a title, a match flag, or the failsafe flag. -/
def successKey (env : Env) : Bool :=
  (Env.lookup env "message").isSome || (Env.lookup env "found").isSome ||
  (Env.lookup env "x").isSome || (Env.lookup env "windows").isSome ||
  (Env.lookup env "title").isSome || (Env.lookup env "matches").isSome ||
  (Env.lookup env "enabled").isSome

/-- The malformed color classes named by the specification: a string
starting with neither a hash nor a left parenthesis; a hex body whose
length is not 6; a parenthesized form without exactly 3 comma-separated
parts. -/
def malformedColor (color : String) : Bool :=
  if color.data.head? = some '#' then
    decide ((color.data.dropWhile (fun c => c = '#')).length ≠ 6)
  else if color.data.head? = some '(' then
    decide ((splitOnComma (stripParenSpace color.data)).length ≠ 3)
  else true

theorem foldl_basename_no_slash (l : List Char) : ∀ (acc : List Char),
    (∀ c ∈ acc, c ≠ '/') →
    ∀ c ∈ l.foldl (fun acc c => if c = '/' then [] else acc ++ [c]) acc, c ≠ '/' := by
  induction l with
  | nil => intro acc h; exact h
  | cons d l ih =>
    intro acc h c hc
    simp only [List.foldl_cons] at hc
    refine ih _ ?_ c hc
    intro e he
    by_cases hd : d = '/'
    · rw [if_pos hd] at he
      exact absurd he (List.not_mem_nil e)
    · rw [if_neg hd] at he
      rcases List.mem_append.mp he with h1 | h1
      · exact h e h1
      · rw [List.mem_singleton.mp h1]
        exact hd

theorem basename_no_slash (p : String) : ∀ c ∈ (basename p).data, c ≠ '/' :=
  foldl_basename_no_slash p.data [] (fun _ h => absurd h (List.not_mem_nil _))

theorem path_join_screenshots (b : String) (hb : ∀ c ∈ b.data, c ≠ '/') :
    path_join "screenshots" b = "screenshots/" ++ b := by
  unfold path_join
  have h1 : ¬ (b.data.head? = some '/') := by
    cases hd : b.data with
    | nil => simp
    | cons c cs =>
      simp only [List.head?]
      intro hh
      injection hh with hh
      exact hb c (by rw [hd]; exact List.mem_cons_self c cs) hh
  rw [if_neg h1]
  have h2 : ¬ (("screenshots" : String) = "" ∨
      ("screenshots" : String).data.getLast? = some '/') := by decide
  rw [if_neg h2]
  congr 1

theorem dropWhile_eq_self_of_head {p : Char → Bool} (l : List Char)
    (h : ∀ c ∈ l, p c = false) : l.dropWhile p = l := by
  cases l with
  | nil => rfl
  | cons c cs => simp [List.dropWhile_cons, h c (List.mem_cons_self c cs)]

theorem trimChars_eq_self (l : List Char)
    (h : ∀ c ∈ l, c.isWhitespace = false) : trimChars l = l := by
  unfold trimChars
  rw [dropWhile_eq_self_of_head l h,
    dropWhile_eq_self_of_head l.reverse (fun c hc => h c (List.mem_reverse.mp hc)),
    List.reverse_reverse]

theorem hexVal_lt (c : Char) (d : Nat) (h : hexVal? c = some d) : d < 16 := by
  unfold hexVal? at h
  split_ifs at h with h1 h2 h3
  · injection h with h; omega
  · injection h with h; omega
  · injection h with h; omega

theorem hexVal_ge_48 (c : Char) (h : (hexVal? c).isSome = true) : 48 ≤ c.toNat := by
  unfold hexVal? at h
  split_ifs at h with h1 h2 h3
  · exact h1.1
  · omega
  · omega
  · exact absurd h (by simp)

theorem hexVal_not_ws (c : Char) (h : (hexVal? c).isSome = true) :
    c.isWhitespace = false := by
  have h48 := hexVal_ge_48 c h
  simp only [Char.isWhitespace, Bool.or_eq_false_iff, decide_eq_false_iff_not]
  refine ⟨⟨⟨?_, ?_⟩, ?_⟩, ?_⟩ <;>
    (intro hc; rw [hc] at h48; revert h48; decide)

theorem pyDigitsCore_hex : ∀ (cs : List Char) (acc : Nat),
    (∀ c ∈ cs, (hexVal? c).isSome = true) →
    ∃ v, pyDigitsCore hexVal? 16 cs acc = some v ∧ v < (acc + 1) * 16 ^ cs.length := by
  intro cs
  induction cs with
  | nil =>
    intro acc _
    exact ⟨acc, rfl, by simp⟩
  | cons c cs ih =>
    intro acc hcs
    obtain ⟨d, hd⟩ := Option.isSome_iff_exists.mp (hcs c (List.mem_cons_self c cs))
    have hdlt : d < 16 := hexVal_lt c d hd
    have hc_ : c ≠ '_' := by
      intro h
      rw [h] at hd
      have hnone : hexVal? '_' = (none : Option Nat) := by decide
      rw [hnone] at hd
      exact Option.noConfusion hd
    obtain ⟨v, hv, hb⟩ := ih (acc * 16 + d)
      (fun x hx => hcs x (List.mem_cons_of_mem c hx))
    refine ⟨v, ?_, ?_⟩
    · cases cs with
      | nil =>
        rw [pyDigitsCore.eq_3, if_neg hc_, hd]
        exact hv
      | cons c2 cs2 =>
        rw [pyDigitsCore.eq_2, if_neg hc_, hd]
        exact hv
    · calc v < (acc * 16 + d + 1) * 16 ^ cs.length := hb
        _ ≤ ((acc + 1) * 16) * 16 ^ cs.length :=
          Nat.mul_le_mul_right _ (by omega)
        _ = (acc + 1) * 16 ^ (c :: cs).length := by
          rw [List.length_cons, pow_succ]; ring

theorem digitsRun_hex (l : List Char) (hne : l ≠ [])
    (hl : ∀ c ∈ l, (hexVal? c).isSome = true) :
    ∃ v, digitsRun hexVal? 16 l = some v ∧ v < 16 ^ l.length := by
  cases l with
  | nil => exact absurd rfl hne
  | cons c cs =>
    obtain ⟨d, hd⟩ := Option.isSome_iff_exists.mp (hl c (List.mem_cons_self c cs))
    have hdlt : d < 16 := hexVal_lt c d hd
    obtain ⟨v, hv, hb⟩ := pyDigitsCore_hex cs d
      (fun x hx => hl x (List.mem_cons_of_mem c hx))
    refine ⟨v, ?_, ?_⟩
    · simp only [digitsRun, hd]
      exact hv
    · calc v < (d + 1) * 16 ^ cs.length := hb
        _ ≤ 16 * 16 ^ cs.length := Nat.mul_le_mul_right _ (by omega)
        _ = 16 ^ (c :: cs).length := by rw [List.length_cons, pow_succ]; ring

theorem pyNat16body_hex (l : List Char) (hne : l ≠ [])
    (hl : ∀ c ∈ l, (hexVal? c).isSome = true) :
    ∃ v, pyNat16body l = some v ∧ v < 16 ^ l.length := by
  obtain ⟨v, hv, hb⟩ := digitsRun_hex l hne hl
  refine ⟨v, ?_, hb⟩
  have hpre : ¬ (l.take 2 = ['0', 'x'] ∨ l.take 2 = ['0', 'X']) := by
    intro hp
    rcases hp with hp | hp
    · have hx : 'x' ∈ l := List.take_subset 2 l (by rw [hp]; simp)
      exact absurd (hl 'x' hx) (by decide)
    · have hx : 'X' ∈ l := List.take_subset 2 l (by rw [hp]; simp)
      exact absurd (hl 'X' hx) (by decide)
  rw [pyNat16body, if_neg hpre]
  exact hv

theorem head_not_sign (l : List Char)
    (hl : ∀ c ∈ l, (hexVal? c).isSome = true) (sgn : Char)
    (hs : (hexVal? sgn).isSome = false) : ¬ (l.head? = some sgn) := by
  cases l with
  | nil => simp
  | cons c cs =>
    simp only [List.head?]
    intro hh
    injection hh with hh
    rw [hh] at hl
    exact absurd (hl sgn (by rw [← hh]; exact List.mem_cons_self c cs)) (by simp [hs])

theorem pyInt16_all_hex (l : List Char) (hne : l ≠ [])
    (hl : ∀ c ∈ l, (hexVal? c).isSome = true) :
    ∃ v : Nat, pyInt16 l = some (Int.ofNat v) ∧ v < 16 ^ l.length := by
  have htrim : trimChars l = l :=
    trimChars_eq_self l (fun c hc => hexVal_not_ws c (hl c hc))
  obtain ⟨v, hv, hb⟩ := pyNat16body_hex l hne hl
  refine ⟨v, ?_, hb⟩
  rw [pyInt16]
  simp only [htrim]
  rw [if_neg (head_not_sign l hl '+' (by decide)),
    if_neg (head_not_sign l hl '-' (by decide)), hv]
  rfl

/-- C9: fail_safe_check is a pure read of the process-wide failsafe
configuration flag: for every state of the flag it returns an envelope
with enabled equal to the flag and a matching message, never an error
field; it makes no backend call and changes no state (its model is a
total function of the flag alone). -/
theorem c9_failsafe_pure_read (flag : Bool) :
    fail_safe_check flag =
      .ok [("enabled", JVal.bool flag),
        ("message", JVal.str (if flag then "Failsafe enabled" else "Failsafe disabled"))] ∧
    Env.lookup [("enabled", JVal.bool flag),
      ("message", JVal.str (if flag then "Failsafe enabled" else "Failsafe disabled"))]
      "error" = none ∧
    Env.lookup [("enabled", JVal.bool flag),
      ("message", JVal.str (if flag then "Failsafe enabled" else "Failsafe disabled"))]
      "enabled" = some (JVal.bool flag) :=
  ⟨rfl, rfl, rfl⟩

/-- C10: when the backend's active-window title is falsy (None or the
empty string), get_active_window_title returns the literal string "None"
in the title field, so an empty-titled active window is indistinguishable
from no active window. -/
theorem c10_title_falsy_collapse :
    get_active_window_title (.ok none) = get_active_window_title (.ok (some "")) ∧
    get_active_window_title (.ok none) = .ok [("title", JVal.str "None")] :=
  ⟨rfl, rfl⟩

/-- C2 (amended): for every filename argument, the path returned in the
filename field of a successful screenshot call equals the fixed
screenshots directory joined with the base name of the caller's filename,
and that base name contains no path separator (so the path stays a single
component under the screenshots directory).  The original claim's "never
the caller-supplied raw path" fails when the raw path already has the
form screenshots/basename — see the counterexample. -/
theorem c2_screenshot_sanitized_path (fn : String) (region : Option (List Int))
    (img : String) (env : Env)
    (h : screenshot (some fn) region (.ok img) (.ok ()) = .ok env) :
    Env.lookup env "filename" = some (JVal.str ("screenshots/" ++ basename fn)) ∧
    ∀ c ∈ (basename fn).data, c ≠ '/' := by
  have hpj := path_join_screenshots (basename fn) (basename_no_slash fn)
  unfold screenshot at h
  injection h with h
  subst h
  constructor
  · show some (JVal.str (path_join "screenshots" (basename fn))) = _
    rw [hpj]
  · exact basename_no_slash fn

/-- C2 witness: at the path-traversal input "../../etc/passwd" the saved
path is screenshots/passwd. -/
theorem c2_screenshot_sanitized_path_witness :
    Env.lookup [("filename", JVal.str "screenshots/passwd"), ("region", JVal.null),
        ("message", JVal.str "Screenshot saved to screenshots/passwd")] "filename" =
      some (JVal.str ("screenshots/" ++ basename "../../etc/passwd")) ∧
    ∀ c ∈ (basename "../../etc/passwd").data, c ≠ '/' :=
  c2_screenshot_sanitized_path "../../etc/passwd" none "img" _ rfl

/-- C2 counterexample: with caller filename "screenshots/passwd" the
filename field of the envelope is exactly the caller-supplied raw path,
refuting the claim's "never the caller-supplied raw path". -/
theorem c2_raw_path_counterexample :
    screenshot (some "screenshots/passwd") none (.ok "") (.ok ()) =
      .ok [("filename", JVal.str "screenshots/passwd"), ("region", JVal.null),
        ("message", JVal.str "Screenshot saved to screenshots/passwd")] :=
  rfl

/-- C3: two runs of password that differ only in the (non-empty) secret
return identical envelopes; the result field carries only the redaction
marker, and no field of the envelope carries the literal secret (when the
secret does not textually coincide with an echoed argument or the marker
itself). -/
theorem c3_password_no_secret_leak (m t k s1 s2 : String)
    (h1 : s1 ≠ "") (h2 : s2 ≠ "") :
    password m t k (.ok (some s1)) = password m t k (.ok (some s2)) ∧
    ∀ env, password m t k (.ok (some s1)) = .ok env →
      Env.lookup env "result" = some (JVal.str "[REDACTED]") ∧
      (s1 ≠ m → s1 ≠ t → s1 ≠ k → s1 ≠ "[REDACTED]" →
        ∀ p ∈ env, p.2 ≠ JVal.str s1) := by
  have ht1 : pyTruthy (some s1) = true := by simp [pyTruthy, h1]
  have ht2 : pyTruthy (some s2) = true := by simp [pyTruthy, h2]
  constructor
  · simp only [password]
    rw [ht1, ht2]
  · intro env henv
    simp only [password] at henv
    rw [ht1] at henv
    injection henv with henv
    subst henv
    refine ⟨rfl, ?_⟩
    intro hm ht hk hr p hp
    simp only [List.mem_cons, List.not_mem_nil, or_false] at hp
    rcases hp with hp | hp | hp | hp <;> subst hp <;> intro hne <;>
      injection hne with hne
    · exact hm hne.symm
    · exact ht hne.symm
    · exact hk hne.symm
    · exact hr hne.symm

/-- C3 witness: two concrete non-empty secrets give identical envelopes
and a redacted result. -/
theorem c3_password_no_secret_leak_witness :
    password "Enter password" "Password" "*" (.ok (some "hunter2")) =
      password "Enter password" "Password" "*" (.ok (some "swordfish")) ∧
    ∀ env, password "Enter password" "Password" "*" (.ok (some "hunter2")) = .ok env →
      Env.lookup env "result" = some (JVal.str "[REDACTED]") ∧
      ("hunter2" ≠ "Enter password" → "hunter2" ≠ "Password" → "hunter2" ≠ "*" →
        "hunter2" ≠ "[REDACTED]" → ∀ p ∈ env, p.2 ≠ JVal.str "hunter2") :=
  c3_password_no_secret_leak "Enter password" "Password" "*" "hunter2" "swordfish"
    (by decide) (by decide)

/-- C4: when the backend reports the image absent (returns None), the
locate tools return found false with no error key; an error key is absent
for every normal backend return and present exactly when the backend
raises. -/
theorem c4_locate_not_found_is_not_error (img : String) (reg : Option (List Int))
    (e : PyErr) (ob : Option Box) (op : Option PointXY) :
    locate_on_screen img reg (.ok none) =
      .ok [("found", JVal.bool false), ("message", JVal.str "Image not found on screen")] ∧
    locate_center_on_screen img reg (.ok none) =
      .ok [("found", JVal.bool false), ("message", JVal.str "Image not found on screen")] ∧
    (∀ env, locate_on_screen img reg (.ok ob) = .ok env →
      Env.lookup env "error" = none) ∧
    (∀ env, locate_center_on_screen img reg (.ok op) = .ok env →
      Env.lookup env "error" = none) ∧
    (∀ env, locate_on_screen img reg (.error e) = .ok env →
      (Env.lookup env "error").isSome = true) ∧
    (∀ env, locate_center_on_screen img reg (.error e) = .ok env →
      (Env.lookup env "error").isSome = true) := by
  refine ⟨rfl, rfl, ?_, ?_, ?_, ?_⟩
  · intro env henv
    cases ob with
    | some pos => injection henv with henv; subst henv; rfl
    | none => injection henv with henv; subst henv; rfl
  · intro env henv
    cases op with
    | some pos => injection henv with henv; subst henv; rfl
    | none => injection henv with henv; subst henv; rfl
  · intro env henv
    injection henv with henv
    subst henv
    rfl
  · intro env henv
    injection henv with henv
    subst henv
    rfl

/-- C4 witness: at a concrete backend failure the locate envelope carries
an error key. -/
theorem c4_locate_not_found_is_not_error_witness :
    (Env.lookup [("found", JVal.bool false), ("error", JVal.str "boom"),
      ("message", JVal.str "Error finding image: boom")] "error").isSome = true :=
  (c4_locate_not_found_is_not_error "img.png" none ⟨false, "boom"⟩ none none).2.2.2.2.1
    _ rfl

/-- C8: a successful get_windows_with_title result has a count equal to
the length of its windows list; when the backend returns no matching
windows (for any fragment, including the empty string), the envelope is
windows empty list, count 0, with no error field. -/
theorem c8_windows_count_matches (fragment : String) (ws : List PyWindow) (env : Env)
    (h : get_windows_with_title fragment (.ok ws) = .ok env) :
    (∃ l, Env.lookup env "windows" = some (JVal.list l) ∧
      Env.lookup env "count" = some (JVal.int l.length)) ∧
    Env.lookup env "error" = none ∧
    (ws = [] → env = [("windows", JVal.list []), ("count", JVal.int 0)]) := by
  unfold get_windows_with_title at h
  injection h with h
  subst h
  refine ⟨⟨ws.map windowJ, rfl, ?_⟩, rfl, ?_⟩
  · show some (JVal.int ws.length) = some (JVal.int (ws.map windowJ).length)
    rw [List.length_map]
  · intro hws
    subst hws
    rfl

/-- C8 witness: the empty-fragment, zero-match call returns windows empty,
count 0, no error. -/
theorem c8_windows_count_matches_witness :
    (∃ l, Env.lookup [("windows", JVal.list []), ("count", JVal.int 0)] "windows" =
        some (JVal.list l) ∧
      Env.lookup [("windows", JVal.list []), ("count", JVal.int 0)] "count" =
        some (JVal.int l.length)) ∧
    Env.lookup [("windows", JVal.list []), ("count", JVal.int 0)] "error" = none ∧
    (([] : List PyWindow) = [] →
      [("windows", JVal.list []), ("count", JVal.int 0)] =
        [("windows", JVal.list []), ("count", JVal.int 0)]) :=
  c8_windows_count_matches "" [] _ rfl

/-- C6: every color string from the malformed classes named by the
specification (no leading hash or parenthesis, hex body of length other
than 6, parenthesized form without exactly 3 comma-separated parts) makes
pixel_matches_color return an envelope whose only field is an error
describing the invalid format; in particular no matches field is
present. -/
theorem c6_malformed_color_is_error (x y : Int) (color : String) (tol : Int)
    (b : PyResult Bool) (h : malformedColor color = true) :
    ∃ msg, pixel_matches_color x y color tol b =
      .ok [("error", JVal.str ("Failed to process color '" ++ color ++ "': " ++ msg))] ∧
      Env.lookup [("error", JVal.str ("Failed to process color '" ++ color ++ "': " ++ msg))]
        "matches" = none := by
  have hp : ∃ msg, parse_color color = .error msg := by
    unfold malformedColor at h
    split_ifs at h with hh hpar
    · refine ⟨"Hex color must be in #RRGGBB format.", ?_⟩
      simp only [parse_color]
      rw [if_pos hh, if_neg (by simpa using h)]
    · refine ⟨"RGB color must be a tuple/list of 3 integers.", ?_⟩
      have hlen : (splitOnComma (stripParenSpace color.data)).length ≠ 3 := by simpa using h
      simp only [parse_color]
      rw [if_neg hh, if_pos hpar]
      cases hsp : splitOnComma (stripParenSpace color.data) with
      | nil => rfl
      | cons a l1 =>
        cases l1 with
        | nil => rfl
        | cons b2 l2 =>
          cases l2 with
          | nil => rfl
          | cons c2 l3 =>
            cases l3 with
            | nil =>
              rw [hsp] at hlen
              simp at hlen
            | cons d l4 => rfl
    · refine ⟨"Invalid color format. Use '#RRGGBB' or '(R, G, B)'.", ?_⟩
      simp only [parse_color]
      rw [if_neg hh, if_neg hpar]
  obtain ⟨msg, hmsg⟩ := hp
  refine ⟨msg, ?_, rfl⟩
  unfold pixel_matches_color
  rw [hmsg]

/-- C6 witness: the spec's own example "notacolor" yields the
invalid-format error envelope without a matches field. -/
theorem c6_malformed_color_is_error_witness :
    ∃ msg, pixel_matches_color 0 0 "notacolor" 0 (.ok true) =
      .ok [("error", JVal.str ("Failed to process color '" ++ "notacolor" ++ "': " ++ msg))] ∧
      Env.lookup
        [("error", JVal.str ("Failed to process color '" ++ "notacolor" ++ "': " ++ msg))]
        "matches" = none :=
  c6_malformed_color_is_error 0 0 "notacolor" 0 (.ok true) (by decide)

/-- C7 counterexample: the color string "(300, 0, 0)" is accepted by
pixel_matches_color (its envelope has a matches field), yet the parsed
red channel is 300, outside the range 0..255 the claim asserts for every
accepted color string. -/
theorem c7_tuple_range_counterexample :
    parse_color "(300, 0, 0)" = .ok (300, 0, 0) ∧
    ¬ ((300 : Int) ≤ 255) ∧
    pixel_matches_color 0 0 "(300, 0, 0)" 0 (.ok false) =
      .ok [("x", JVal.int 0), ("y", JVal.int 0), ("color", JVal.str "(300, 0, 0)"),
        ("matches", JVal.bool false)] := by
  refine ⟨rfl, by norm_num, rfl⟩

/-- C7 (amended): channels parsed from the hex form lie in the range
0..255 whenever the hex body consists of six hexadecimal digit
characters; the tuple form (and hex slices carrying signs or whitespace)
is not range-checked by the code, as the counterexample shows. -/
theorem c7_hex_channels_in_range (color : String)
    (h1 : color.data.head? = some '#')
    (h2 : (color.data.dropWhile (fun c => c = '#')).length = 6)
    (h3 : ∀ c ∈ color.data.dropWhile (fun c => c = '#'), (hexVal? c).isSome = true) :
    ∃ r g b : Int, parse_color color = .ok (r, g, b) ∧
      0 ≤ r ∧ r ≤ 255 ∧ 0 ≤ g ∧ g ≤ 255 ∧ 0 ≤ b ∧ b ≤ 255 := by
  have hlen0 : ((color.data.dropWhile (fun c => c = '#')).take 2).length = 2 := by
    rw [List.length_take, h2]
    decide
  have hlen1 : (((color.data.dropWhile (fun c => c = '#')).drop 2).take 2).length = 2 := by
    rw [List.length_take, List.length_drop, h2]
    decide
  have hlen2 : (((color.data.dropWhile (fun c => c = '#')).drop 4).take 2).length = 2 := by
    rw [List.length_take, List.length_drop, h2]
    decide
  have hne0 : (color.data.dropWhile (fun c => c = '#')).take 2 ≠ [] := by
    intro hnil; rw [hnil] at hlen0; simp at hlen0
  have hne1 : ((color.data.dropWhile (fun c => c = '#')).drop 2).take 2 ≠ [] := by
    intro hnil; rw [hnil] at hlen1; simp at hlen1
  have hne2 : ((color.data.dropWhile (fun c => c = '#')).drop 4).take 2 ≠ [] := by
    intro hnil; rw [hnil] at hlen2; simp at hlen2
  have t0 : ∀ c ∈ (color.data.dropWhile (fun c => c = '#')).take 2,
      (hexVal? c).isSome = true :=
    fun c hc => h3 c (List.take_subset 2 _ hc)
  have t1 : ∀ c ∈ ((color.data.dropWhile (fun c => c = '#')).drop 2).take 2,
      (hexVal? c).isSome = true :=
    fun c hc => h3 c (List.drop_subset 2 _ (List.take_subset 2 _ hc))
  have t2 : ∀ c ∈ ((color.data.dropWhile (fun c => c = '#')).drop 4).take 2,
      (hexVal? c).isSome = true :=
    fun c hc => h3 c (List.drop_subset 4 _ (List.take_subset 2 _ hc))
  obtain ⟨v0, hv0, hb0⟩ := pyInt16_all_hex _ hne0 t0
  obtain ⟨v1, hv1, hb1⟩ := pyInt16_all_hex _ hne1 t1
  obtain ⟨v2, hv2, hb2⟩ := pyInt16_all_hex _ hne2 t2
  rw [hlen0] at hb0
  rw [hlen1] at hb1
  rw [hlen2] at hb2
  norm_num at hb0 hb1 hb2
  refine ⟨(v0 : Int), (v1 : Int), (v2 : Int), ?_, ?_, ?_, ?_, ?_, ?_, ?_⟩
  · simp only [parse_color]
    rw [if_pos h1]
    rw [if_pos h2]
    rw [hv0, hv1, hv2]
    rfl
  · omega
  · omega
  · omega
  · omega
  · omega
  · omega

/-- C7 witness: the six-hex-digit color "#FF0000" parses to in-range
channels. -/
theorem c7_hex_channels_in_range_witness :
    ∃ r g b : Int, parse_color "#FF0000" = .ok (r, g, b) ∧
      0 ≤ r ∧ r ≤ 255 ∧ 0 ≤ g ∧ g ≤ 255 ∧ 0 ≤ b ∧ b ≤ 255 :=
  c7_hex_channels_in_range "#FF0000" rfl (by decide) (by decide)

/-- C1 (amended): for every modelled tool call that returns an envelope,
the envelope carries an error key exactly when the call failed (a caught
backend exception, or a color-parse failure), and every successful call's
envelope carries a success indication.  The original claim's "exactly
one, never both" fails: the locate tools' failure envelopes carry error,
message and found together — see the counterexample. -/
theorem c1_error_key_iff_failure (c : Call) (env : Env)
    (h : runTool c = .ok env) :
    (Env.lookup env "error").isSome = callFailed c ∧
    (callFailed c = false → successKey env = true) := by
  cases c with
  | moveMouse x y b =>
    cases b with
    | ok u => injection h with h; subst h; exact ⟨rfl, fun _ => rfl⟩
    | error e =>
      rcases e with ⟨flag, msg⟩
      cases flag
      · exact Except.noConfusion h
      · injection h with h; subst h
        exact ⟨rfl, fun hh => Bool.noConfusion hh⟩
  | getMousePosition b =>
    cases b with
    | ok p => injection h with h; subst h; exact ⟨rfl, fun _ => rfl⟩
    | error e =>
      rcases e with ⟨flag, msg⟩
      cases flag
      · exact Except.noConfusion h
      · injection h with h; subst h
        exact ⟨rfl, fun hh => Bool.noConfusion hh⟩
  | screenshotCall fn reg shot save =>
    cases shot with
    | error e =>
      rcases e with ⟨flag, msg⟩
      cases flag
      · exact Except.noConfusion h
      · injection h with h; subst h
        exact ⟨rfl, fun hh => Bool.noConfusion hh⟩
    | ok img =>
      cases fn with
      | none => injection h with h; subst h; exact ⟨rfl, fun _ => rfl⟩
      | some fnv =>
        cases save with
        | ok u => injection h with h; subst h; exact ⟨rfl, fun _ => rfl⟩
        | error e =>
          rcases e with ⟨flag, msg⟩
          cases flag
          · exact Except.noConfusion h
          · injection h with h; subst h
            exact ⟨rfl, fun hh => Bool.noConfusion hh⟩
  | locateOnScreen p reg b =>
    cases b with
    | ok ob =>
      cases ob with
      | some pos => injection h with h; subst h; exact ⟨rfl, fun _ => rfl⟩
      | none => injection h with h; subst h; exact ⟨rfl, fun _ => rfl⟩
    | error e =>
      injection h with h; subst h
      exact ⟨rfl, fun hh => Bool.noConfusion hh⟩
  | locateCenterOnScreen p reg b =>
    cases b with
    | ok op =>
      cases op with
      | some pos => injection h with h; subst h; exact ⟨rfl, fun _ => rfl⟩
      | none => injection h with h; subst h; exact ⟨rfl, fun _ => rfl⟩
    | error e =>
      injection h with h; subst h
      exact ⟨rfl, fun hh => Bool.noConfusion hh⟩
  | pixelMatchesColor x y color tol b =>
    cases hp : parse_color color with
    | error msg =>
      simp only [runTool, pixel_matches_color] at h
      rw [hp] at h
      injection h with h
      subst h
      constructor
      · simp only [callFailed]
        rw [hp]
        rfl
      · intro hh
        simp only [callFailed] at hh
        rw [hp] at hh
        exact Bool.noConfusion hh
    | ok t =>
      cases b with
      | ok m =>
        simp only [runTool, pixel_matches_color] at h
        rw [hp] at h
        injection h with h
        subst h
        constructor
        · simp only [callFailed]
          rw [hp]
          rfl
        · intro _
          rfl
      | error e =>
        simp only [runTool, pixel_matches_color] at h
        rw [hp] at h
        injection h with h
        subst h
        constructor
        · simp only [callFailed]
          rw [hp]
          rfl
        · intro hh
          simp only [callFailed] at hh
          rw [hp] at hh
          exact Bool.noConfusion hh
  | getWindowsWithTitle f b =>
    cases b with
    | ok ws => injection h with h; subst h; exact ⟨rfl, fun _ => rfl⟩
    | error e =>
      rcases e with ⟨flag, msg⟩
      cases flag
      · exact Except.noConfusion h
      · injection h with h; subst h
        exact ⟨rfl, fun hh => Bool.noConfusion hh⟩
  | getActiveWindowTitle b =>
    cases b with
    | ok t => injection h with h; subst h; exact ⟨rfl, fun _ => rfl⟩
    | error e =>
      rcases e with ⟨flag, msg⟩
      cases flag
      · exact Except.noConfusion h
      · injection h with h; subst h
        exact ⟨rfl, fun hh => Bool.noConfusion hh⟩
  | passwordCall m t k b =>
    cases b with
    | ok r => injection h with h; subst h; exact ⟨rfl, fun _ => rfl⟩
    | error e =>
      rcases e with ⟨flag, msg⟩
      cases flag
      · exact Except.noConfusion h
      · injection h with h; subst h
        exact ⟨rfl, fun hh => Bool.noConfusion hh⟩
  | failSafeCheck f =>
    injection h with h; subst h
    exact ⟨rfl, fun _ => rfl⟩

/-- C1 witness: a successful move_mouse call has no error key and a
success indication. -/
theorem c1_error_key_iff_failure_witness :
    (Env.lookup [("x", JVal.int 3), ("y", JVal.int 4),
      ("message", JVal.str "Mouse moved to (3, 4)")] "error").isSome =
      callFailed (.moveMouse 3 4 (.ok ())) ∧
    (callFailed (.moveMouse 3 4 (.ok ())) = false →
      successKey [("x", JVal.int 3), ("y", JVal.int 4),
        ("message", JVal.str "Mouse moved to (3, 4)")] = true) :=
  c1_error_key_iff_failure (.moveMouse 3 4 (.ok ())) _ rfl

/-- C1 counterexample: when the backend raises, locate_on_screen returns
an envelope holding found, error and message all at once — both a success
indication and an error are present, refuting "never both". -/
theorem c1_locate_both_keys_counterexample :
    runTool (.locateOnScreen "missing.png" none (.error ⟨false, "boom"⟩)) =
      .ok [("found", JVal.bool false), ("error", JVal.str "boom"),
        ("message", JVal.str "Error finding image: boom")] ∧
    (Env.lookup [("found", JVal.bool false), ("error", JVal.str "boom"),
      ("message", JVal.str "Error finding image: boom")] "error").isSome = true ∧
    (Env.lookup [("found", JVal.bool false), ("error", JVal.str "boom"),
      ("message", JVal.str "Error finding image: boom")] "message").isSome = true :=
  ⟨rfl, rfl, rfl⟩

/-- C5 (amended): backend exceptions that are PyAutoGUIException
instances are always converted to error envelopes, and the locate and
pixel-match tools (whose try bodies are guarded by a bare except) convert
every exception; but exceptions of other types in the remaining tools are
not caught — see the counterexample. -/
theorem c5_pyautogui_failures_contained (c : Call)
    (h : callErrorsArePyAutoGUI c = true ∨ catchesAllExceptions c = true) :
    ∃ env : Env, runTool c = .ok env := by
  cases c with
  | moveMouse x y b =>
    rcases h with h | h
    · cases b with
      | ok u => exact ⟨_, rfl⟩
      | error e =>
        rcases e with ⟨flag, msg⟩
        cases flag
        · exact Bool.noConfusion h
        · exact ⟨_, rfl⟩
    · exact Bool.noConfusion h
  | getMousePosition b =>
    rcases h with h | h
    · cases b with
      | ok p => exact ⟨_, rfl⟩
      | error e =>
        rcases e with ⟨flag, msg⟩
        cases flag
        · exact Bool.noConfusion h
        · exact ⟨_, rfl⟩
    · exact Bool.noConfusion h
  | screenshotCall fn reg shot save =>
    rcases h with h | h
    · cases shot with
      | error e =>
        rcases e with ⟨flag, msg⟩
        cases flag
        · exact Bool.noConfusion h
        · exact ⟨_, rfl⟩
      | ok img =>
        cases fn with
        | none => exact ⟨_, rfl⟩
        | some fnv =>
          cases save with
          | ok u => exact ⟨_, rfl⟩
          | error e =>
            rcases e with ⟨flag, msg⟩
            cases flag
            · exact Bool.noConfusion h
            · exact ⟨_, rfl⟩
    · exact Bool.noConfusion h
  | locateOnScreen p reg b =>
    cases b with
    | ok ob =>
      cases ob with
      | some pos => exact ⟨_, rfl⟩
      | none => exact ⟨_, rfl⟩
    | error e => exact ⟨_, rfl⟩
  | locateCenterOnScreen p reg b =>
    cases b with
    | ok op =>
      cases op with
      | some pos => exact ⟨_, rfl⟩
      | none => exact ⟨_, rfl⟩
    | error e => exact ⟨_, rfl⟩
  | pixelMatchesColor x y color tol b =>
    cases hp : parse_color color with
    | error msg =>
      refine ⟨[("error", JVal.str ("Failed to process color '" ++ color ++ "': " ++ msg))], ?_⟩
      simp only [runTool, pixel_matches_color]
      rw [hp]
    | ok t =>
      cases b with
      | ok m =>
        refine ⟨[("x", JVal.int x), ("y", JVal.int y), ("color", JVal.str color),
          ("matches", JVal.bool m)], ?_⟩
        simp only [runTool, pixel_matches_color]
        rw [hp]
      | error e =>
        refine ⟨[("error", JVal.str ("Failed to process color '" ++ color ++ "': " ++ e.msg))], ?_⟩
        simp only [runTool, pixel_matches_color]
        rw [hp]
  | getWindowsWithTitle f b =>
    rcases h with h | h
    · cases b with
      | ok ws => exact ⟨_, rfl⟩
      | error e =>
        rcases e with ⟨flag, msg⟩
        cases flag
        · exact Bool.noConfusion h
        · exact ⟨_, rfl⟩
    · exact Bool.noConfusion h
  | getActiveWindowTitle b =>
    rcases h with h | h
    · cases b with
      | ok t => exact ⟨_, rfl⟩
      | error e =>
        rcases e with ⟨flag, msg⟩
        cases flag
        · exact Bool.noConfusion h
        · exact ⟨_, rfl⟩
    · exact Bool.noConfusion h
  | passwordCall m t k b =>
    rcases h with h | h
    · cases b with
      | ok r => exact ⟨_, rfl⟩
      | error e =>
        rcases e with ⟨flag, msg⟩
        cases flag
        · exact Bool.noConfusion h
        · exact ⟨_, rfl⟩
    · exact Bool.noConfusion h
  | failSafeCheck f => exact ⟨_, rfl⟩

/-- C5 witness: a fail-safe abort (a PyAutoGUIException) inside move_mouse
is converted into an envelope. -/
theorem c5_pyautogui_failures_contained_witness :
    ∃ env : Env,
      runTool (.moveMouse 1 2 (.error ⟨true, "PyAutoGUI fail-safe triggered"⟩)) =
        .ok env :=
  c5_pyautogui_failures_contained
    (.moveMouse 1 2 (.error ⟨true, "PyAutoGUI fail-safe triggered"⟩)) (Or.inl rfl)

/-- C5 counterexample: a malformed region argument makes the backend of
screenshot raise a ValueError, which is not a PyAutoGUIException; the
tool's except clause does not convert it into an error envelope and the
exception propagates out of the tool call, refuting "no exception
propagates out of a tool call". -/
theorem c5_screenshot_region_propagates_counterexample :
    runTool (.screenshotCall (some "shot.png") (some [0, 0, 100])
        (.error ⟨false, "not enough values to unpack (expected 4, got 3)"⟩) (.ok ())) =
      .error ⟨false, "not enough values to unpack (expected 4, got 3)"⟩ :=
  rfl

end PyMCP
